import Mathlib

/-!
Shallow embedding of the CORS origin-authorization logic and the

OpenRouter call-governor logic of this repository, together with proofs
about the claims of the specification.

The CORS logic exists in three drifting copies:
* `CorsMiddlewareJs` embeds the middleware module (`isOriginAllowed`,
  `corsOptions.origin`, `setCorsHeaders`, `corsMiddleware`) that escapes
  dots and compiles a `*` to the character class `[^.]*`;
* `CorsMiddlewareAlt` embeds the alternative middleware that compiles a
  `*` to `.*` and leaves dots unescaped;
* `ServerHandler` embeds the inline CORS block of the serverless handler
  in `server.js`, whose hand-written regular expression is
  `^https:\/\/ai-native-book-[^.]*\.vercel\.app$`.

The rate limiter and the two retry paths are embedded in `OpenRouterApi`
(module-level `rateLimiter`, `checkLimit`, and the error classification of
`callOpenRouterCompletion`) and `TranslationContext` (`translateText`).
-/

/-- Tokens of the compiled origin patterns.  `lit c` is a literal
character (an escaped dot compiles to `lit '.'`), `anyc` is an unescaped
`.` metacharacter, `starNonDot` is the class `[^.]*` and `starAny` is
`.*`.  Origins contain no line terminators, so `anyc` and `starAny` match
every character. -/
inductive Tok where
  | lit (c : Char)
  | anyc
  | starNonDot
  | starAny
deriving DecidableEq, Repr

/-- Anchored matching of a compiled pattern against a whole string,
exactly the semantics of `new RegExp("^" + pattern + "$").test(origin)`
for the token language above.  A star matches by splitting off some
prefix of the remaining input. -/
def matchToks : List Tok → List Char → Bool
  | [], s => s.isEmpty
  | Tok.lit c :: ts, s =>
      match s with
      | [] => false
      | d :: s1 => c == d && matchToks ts s1
  | Tok.anyc :: ts, s =>
      match s with
      | [] => false
      | _ :: s1 => matchToks ts s1
  | Tok.starNonDot :: ts, s =>
      (List.range (s.length + 1)).any fun k =>
        (s.take k).all (fun c => c != '.') && matchToks ts (s.drop k)
  | Tok.starAny :: ts, s =>
      (List.range (s.length + 1)).any fun k => matchToks ts (s.drop k)

namespace CorsMiddlewareJs

/-- Compilation performed by `isOriginAllowed`:
`allowedOrigin.replace(/\./g, '\\.').replace(/\*/g, '[^.]*')`.
Every dot is escaped (so it stays a literal) and every `*` becomes the
class `[^.]*`; all remaining origin characters are regex-literal. -/
def compilePattern (pattern : String) : List Tok :=
  pattern.toList.map fun c => if c == '*' then Tok.starNonDot else Tok.lit c

/-- The function `isOriginAllowed(origin)`: a falsy (empty) origin is refused, then the
allow-list is scanned; an entry matches by exact string equality, or, when
it contains a `*`, by the compiled anchored regular expression. -/
def isOriginAllowed (allowedOrigins : List String) (origin : String) : Bool :=
  if origin == "" then false
  else
    allowedOrigins.any fun allowedOrigin =>
      if allowedOrigin == origin then true
      else if allowedOrigin.toList.contains '*' then
        matchToks (compilePattern allowedOrigin) origin.toList
      else false

/-- Result of the `corsOptions.origin` callback: `callback(null, true)` or
`callback(new Error(...))`. -/
inductive OriginDecision where
  | allow
  | reject (msg : String)
deriving DecidableEq, Repr

/-- The `corsOptions.origin` function: requests with no (or a falsy)
`Origin` header are allowed, otherwise `isOriginAllowed` decides. -/
def corsOptionsOrigin (allowedOrigins : List String) (origin : Option String) :
    OriginDecision :=
  match origin with
  | none => OriginDecision.allow
  | some o =>
      if o == "" then OriginDecision.allow
      else if isOriginAllowed allowedOrigins o then OriginDecision.allow
      else OriginDecision.reject ("Origin " ++ o ++ " not allowed by CORS policy")

/-- The six headers set by `setCorsHeaders` on a matching origin. -/
def allowedHeadersList (origin : String) : List (String × String) :=
  [("Access-Control-Allow-Origin", origin),
   ("Access-Control-Allow-Credentials", "true"),
   ("Access-Control-Allow-Methods", "GET, POST, PUT, DELETE, OPTIONS, PATCH"),
   ("Access-Control-Allow-Headers",
     "Content-Type, Authorization, X-Requested-With, Accept, Origin, Cookie, Cache-Control, Pragma, Expires"),
   ("Access-Control-Expose-Headers", "Set-Cookie"),
   ("Access-Control-Max-Age", "86400")]

/-- The function `setCorsHeaders(req, res)`: headers are set only when
`origin && isOriginAllowed(origin)` is truthy. -/
def setCorsHeaders (allowedOrigins : List String) (origin : Option String) :
    List (String × String) :=
  match origin with
  | none => []
  | some o =>
      if (o != "") && isOriginAllowed allowedOrigins o then allowedHeadersList o
      else []

end CorsMiddlewareJs

/-- Observable outcome of running one of the CORS middleware functions on a
request: the headers it set, the status and body it wrote (if it ended the
response), and whether control reached `next()` (the route handlers). -/
structure MwResult where
  headers : List (String × String)
  status : Option Nat
  body : Option String
  reachedNext : Bool
deriving DecidableEq, Repr

namespace CorsMiddlewareJs

/-- The `corsMiddleware` of the middleware module: set the headers, then
answer `OPTIONS` preflights with `204` and no body, everything else falls
through to `next()`. -/
def corsMiddleware (allowedOrigins : List String) (method : String)
    (origin : Option String) : MwResult :=
  let hs := setCorsHeaders allowedOrigins origin
  if method == "OPTIONS" then
    { headers := hs, status := some 204, body := none, reachedNext := false }
  else
    { headers := hs, status := none, body := none, reachedNext := true }

end CorsMiddlewareJs

namespace CorsMiddlewareAlt

/-- Compilation performed by the alternative middleware:
`allowedOrigin.replace(/\*/g, '.*')`.  Dots are NOT escaped, so a `.` in
the pattern is the any-character metacharacter, and a `*` becomes `.*`. -/
def compilePattern (pattern : String) : List Tok :=
  pattern.toList.map fun c =>
    if c == '*' then Tok.starAny
    else if c == '.' then Tok.anyc
    else Tok.lit c

/-- The `isAllowed` check of the alternative middleware.  There is no
missing-origin guard: an absent origin compares unequal to every string,
and `regex.test(origin)` coerces `undefined` to the string `"undefined"`. -/
def isAllowed (allowedOrigins : List String) (origin : Option String) : Bool :=
  allowedOrigins.any fun allowedOrigin =>
    if (match origin with | some o => allowedOrigin == o | none => false) then true
    else if allowedOrigin.toList.contains '*' then
      matchToks (compilePattern allowedOrigin) ((origin.getD ("undefined")).toList)
    else false

/-- The six headers set by the alternative middleware on a match.  It
exposes `Content-Length, Content-Type, Authorization` and never
`Set-Cookie`. -/
def altHeadersList (origin : String) : List (String × String) :=
  [("Access-Control-Allow-Origin", origin),
   ("Access-Control-Allow-Credentials", "true"),
   ("Access-Control-Allow-Methods", "GET, POST, PUT, DELETE, OPTIONS, PATCH"),
   ("Access-Control-Allow-Headers",
     "Content-Type, Authorization, X-Requested-With, Accept, Origin"),
   ("Access-Control-Max-Age", "86400"),
   ("Access-Control-Expose-Headers", "Content-Length, Content-Type, Authorization")]

/-- The alternative `corsMiddleware`: headers on match, then `OPTIONS`
requests are ended with status `200` (not `204`) and no body. -/
def corsMiddleware (allowedOrigins : List String) (method : String)
    (origin : Option String) : MwResult :=
  let hs :=
    if isAllowed allowedOrigins origin then altHeadersList (origin.getD ("undefined"))
    else []
  if method == "OPTIONS" then
    { headers := hs, status := some 200, body := none, reachedNext := false }
  else
    { headers := hs, status := none, body := none, reachedNext := true }

end CorsMiddlewareAlt

namespace ServerHandler

/-- The hard-coded allow-list of the serverless handler in `server.js`. -/
def allowedOrigins : List String :=
  ["https://ai-native-book-tf39.vercel.app",
   "https://Ai-Native-Book.vercel.app",
   "https://physical-ai-humanoid-robotics-book-eosin.vercel.app",
   "http://localhost:3000",
   "http://localhost:5001",
   "http://localhost:3001"]

/-- The handler's literal regular expression
`^https:\/\/ai-native-book-[^.]*\.vercel\.app$`: every dot escaped and a
single `[^.]*` class, i.e. exactly the compilation of the middleware
module applied to `https://ai-native-book-*.vercel.app`. -/
def wildcardToks : List Tok :=
  CorsMiddlewareJs.compilePattern ("https://ai-native-book-*.vercel.app")

/-- The check `isAllowed = origin && (allowedOrigins.includes(origin) || regex.test(origin))`. -/
def isAllowed (origin : Option String) : Bool :=
  match origin with
  | none => false
  | some o => allowedOrigins.contains o || matchToks wildcardToks o.toList

/-- The headers set by the handler on a match (exposing `Set-Cookie`). -/
def handlerHeadersList (origin : String) : List (String × String) :=
  [("Access-Control-Allow-Origin", origin),
   ("Access-Control-Allow-Credentials", "true"),
   ("Access-Control-Allow-Methods", "GET, POST, PUT, DELETE, OPTIONS, PATCH"),
   ("Access-Control-Allow-Headers",
     "Content-Type, Authorization, X-Requested-With, Accept, Origin, Cookie"),
   ("Access-Control-Expose-Headers", "Set-Cookie"),
   ("Access-Control-Max-Age", "86400")]

/-- The CORS stage of the serverless handler: headers on match, `OPTIONS`
requests are ended with status `204` and no body before `app` is invoked;
all other requests continue into the express app (`reachedNext`). -/
def handlerCors (method : String) (origin : Option String) : MwResult :=
  let hs :=
    if isAllowed origin then handlerHeadersList (origin.getD ("undefined")) else []
  if method == "OPTIONS" then
    { headers := hs, status := some 204, body := none, reachedNext := false }
  else
    { headers := hs, status := none, body := none, reachedNext := true }

end ServerHandler

namespace OpenRouterApi

/-- The module-level `rateLimiter` object state: the ordered list of
admitted-call timestamps (`push` appends at the back, `shift` removes the
front), the configured `maxRequests` and the window width in
milliseconds.  Timestamps are integer milliseconds from `Date.now()`. -/
structure RateLimiterState where
  requests : List Int
  maxRequests : Nat
  timeWindow : Int
deriving DecidableEq, Repr

/-- The module initial value: `requests: [], maxRequests: 50, timeWindow: 60000`. -/
def rateLimiterInitial : RateLimiterState :=
  { requests := [], maxRequests := 50, timeWindow := 60000 }

/-- The pruning step of `checkLimit`:
`this.requests.filter(time => now - time < this.timeWindow)`. -/
def pruneRequests (requests : List Int) (now window : Int) : List Int :=
  requests.filter fun time => now - time < window

/-- One call of `rateLimiter.checkLimit()`.  `now` is the `Date.now()`
read on entry and `wake` is the `Date.now()` read after the
`setTimeout` sleep of the over-limit branch (unused on the fast path).
Returns the new state and the wait in milliseconds (`0` when the call was
admitted immediately).  In the over-limit branch the pruned list is
nonempty whenever `maxRequests ≥ 1`, so `headD 0` is `this.requests[0]`;
the oldest entry is then shifted off and `wake` is pushed, without
re-pruning. -/
def checkLimit (st : RateLimiterState) (now wake : Int) : RateLimiterState × Int :=
  let pruned := pruneRequests st.requests now st.timeWindow
  if pruned.length < st.maxRequests then
    ({ st with requests := pruned ++ [now] }, 0)
  else
    let oldestRequest := pruned.headD 0
    let waitTime := st.timeWindow - (now - oldestRequest) + 1000
    ({ st with requests := pruned.tail ++ [wake] }, waitTime)

/-- A sequence of back-to-back `checkLimit` calls in which each call's
wake-up time is its entry time (adequate for runs in which no call ever
waits); returns the final state and the list of waits. -/
def runCheckLimitSimple (st : RateLimiterState) : List Int → RateLimiterState × List Int
  | [] => (st, [])
  | t :: ts =>
      let step := checkLimit st t t
      let rest := runCheckLimitSimple step.1 ts
      (rest.1, step.2 :: rest.2)

/-- The two exported API entry points.  Both `callOpenRouterCompletion`
and `callOpenRouterEmbeddings` begin with `await rateLimiter.checkLimit()`
on the one module-level `rateLimiter` object. -/
inductive ApiCallKind where
  | completion
  | embeddings
deriving DecidableEq, Repr

/-- The admission step performed by an API call of either kind: both
kinds invoke `checkLimit` on the same shared limiter state. -/
def governedAdmission (st : RateLimiterState) (kind : ApiCallKind)
    (now wake : Int) : RateLimiterState × Int :=
  match kind with
  | ApiCallKind.completion => checkLimit st now wake
  | ApiCallKind.embeddings => checkLimit st now wake

/-- A trace of admissions of mixed kinds against the shared limiter. -/
def runGoverned (st : RateLimiterState) :
    List (ApiCallKind × Int × Int) → RateLimiterState
  | [] => st
  | (k, now, wake) :: rest => runGoverned (governedAdmission st k now wake).1 rest

/-- Substring test on character lists, the semantics of JavaScript
`String.prototype.includes`. -/
def listContainsSublist : List Char → List Char → Bool
  | _, [] => true
  | [], _ :: _ => false
  | d :: hay, needle => needle.isPrefixOf (d :: hay) || listContainsSublist hay needle

/-- String form of `hay.includes(needle)`. -/
def includesStr (hay needle : String) : Bool :=
  listContainsSublist hay.toList needle.toList

/-- The quota test of the catch blocks:
`errorMessage.toLowerCase().includes('quota') ||
 errorMessage.toLowerCase().includes('rate limit')`
(the messages involved are ASCII, where `Char.toLower` agrees with
JavaScript `toLowerCase`). -/
def isQuotaMessage (msg : String) : Bool :=
  let lower := String.mk (msg.toList.map Char.toLower)
  includesStr lower ("quota") || includesStr lower ("rate limit")

/-- Shape of `error.response` of a failed axios call: the HTTP status and
`error.response.data?.error?.message`. -/
structure ProviderErrorResponse where
  status : Nat
  errMessage : Option String
deriving DecidableEq, Repr

/-- Outcome of the single axios POST inside `callOpenRouterCompletion`:
a 2xx response carrying `response.data?.choices?.[0]?.message?.content`
(or not), a non-2xx response (`error.response`), no response at all
(`error.request`), or a request-setup error. -/
inductive AxiosOutcome where
  | success (content : Option String)
  | httpFailure (r : ProviderErrorResponse)
  | noResponse
  | requestSetupError (msg : String)
deriving DecidableEq, Repr

/-- The error value `callOpenRouterCompletion` throws: the message and the
`.status` field when one is attached. -/
structure ApiFailure where
  message : String
  status : Option Nat
deriving DecidableEq, Repr

/-- Result classification of `callOpenRouterCompletion` after its single
axios call.  There is no retry anywhere in this function: every branch
returns or throws at once.  A missing `choices[0].message.content` throws
`Error('Unexpected response format from OpenRouter API')` inside the try
block; that error has neither `.response` nor `.request`, so the catch
block rethrows it through its final else branch with no status. -/
def callOpenRouterCompletionResult (outcome : AxiosOutcome) : Except ApiFailure String :=
  match outcome with
  | AxiosOutcome.success (some content) => Except.ok content.trim
  | AxiosOutcome.success none =>
      Except.error
        { message := "Failed to call OpenRouter API: Unexpected response format from OpenRouter API",
          status := none }
  | AxiosOutcome.httpFailure r =>
      let errorMessage := r.errMessage.getD "Unknown API error"
      if isQuotaMessage errorMessage then
        Except.error
          { message := "OpenRouter API rate limit reached. Please wait a moment and try again.",
            status := some 429 }
      else
        Except.error
          { message := "OpenRouter API error: " ++ errorMessage,
            status := some (if r.status == 0 then 500 else r.status) }
  | AxiosOutcome.noResponse =>
      Except.error
        { message := "No response from OpenRouter API. Please check your internet connection.",
          status := some 503 }
  | AxiosOutcome.requestSetupError msg =>
      Except.error
        { message := "Failed to call OpenRouter API: " ++ msg, status := none }

end OpenRouterApi

namespace TranslationContext

/-- The parsed body and status of one `fetch` of `translateText`:
`response.ok`, `data.error`, `data.details`, `data.success` (truthiness)
and `data.translatedText`. -/
structure FetchResult where
  ok : Bool
  errorMsg : Option String
  details : Option String
  success : Bool
  translatedText : Option String
deriving DecidableEq, Repr

/-- One attempt either yields a parsed response or rejects (network
failure, or a body that is not JSON). -/
inductive FetchOutcome where
  | response (r : FetchResult)
  | networkFailure
deriving DecidableEq, Repr

/-- The quota test of `translateText`:
`data.error && data.error.includes('Quota exceeded')`.  The JavaScript
truthiness guard only excludes an empty `data.error`, on which `includes`
of the nonempty needle is false anyway. -/
def quotaErrCond (r : FetchResult) : Bool :=
  match r.errorMsg with
  | some e => OpenRouterApi.includesStr e ("Quota exceeded")
  | none => false

/-- The body of `translateText(text, targetLang, retries)` (cache and
rate-limiter slot wait elided; neither changes the retry orchestration).
`outcomes i` is the fetch outcome of attempt `i`.  Returns what the call
produces (`Except.error` would be an uncaught throw — no branch produces
one) together with the list of backoff sleeps, in milliseconds, taken
before each recursive retry.  A non-ok non-quota response throws
`Error(data.details || data.error || 'Translation failed')`, which the
surrounding catch block converts into the generic 2-second retry; a
rejected fetch takes the same path.  When `retries` is exhausted, both
the quota branch and the catch block return the untranslated input
`text`. -/
def translateTextGo (text : String) (outcomes : Nat → FetchOutcome)
    (attempt : Nat) (retries : Nat) : Except String String × List Nat :=
  match outcomes attempt with
  | FetchOutcome.networkFailure =>
      match retries with
      | k + 1 =>
          let rest := translateTextGo text outcomes (attempt + 1) k
          (rest.1, 2000 :: rest.2)
      | 0 => (Except.ok text, [])
  | FetchOutcome.response r =>
      if r.ok = false then
        if quotaErrCond r then
          match retries with
          | k + 1 =>
              let rest := translateTextGo text outcomes (attempt + 1) k
              (rest.1, 16000 :: rest.2)
          | 0 => (Except.ok text, [])
        else
          match retries with
          | k + 1 =>
              let rest := translateTextGo text outcomes (attempt + 1) k
              (rest.1, 2000 :: rest.2)
          | 0 => (Except.ok text, [])
      else
        match r.translatedText with
        | some t => if r.success && (t != "") then (Except.ok t, []) else (Except.ok text, [])
        | none => (Except.ok text, [])

/-- The default of the `retries` parameter: `retries = 3`. -/
def defaultRetries : Nat := 3

/-- The function `translateText` started at attempt `0` with a given retry budget. -/
def translateText (text : String) (outcomes : Nat → FetchOutcome)
    (retries : Nat) : Except String String × List Nat :=
  translateTextGo text outcomes 0 retries

/-- An attempt outcome that takes the quota branch: a non-ok response
whose `data.error` contains `'Quota exceeded'`. -/
def isQuotaOutcome : FetchOutcome → Bool
  | FetchOutcome.response r => !r.ok && quotaErrCond r
  | FetchOutcome.networkFailure => false

/-- An attempt outcome that takes the generic 2-second retry path: a
rejected fetch, or a non-ok response whose error is not a quota error. -/
def isGenericFailOutcome : FetchOutcome → Bool
  | FetchOutcome.response r => !r.ok && !quotaErrCond r
  | FetchOutcome.networkFailure => true

/-- A provider response in which every attempt reports quota exhaustion. -/
def allQuotaOutcomes : Nat → FetchOutcome := fun _ =>
  FetchOutcome.response
    { ok := false, errorMsg := some "Quota exceeded", details := none,
      success := false, translatedText := none }

/-- A provider response in which every attempt is an HTTP 400 with a
non-quota message. -/
def allBadRequestOutcomes : Nat → FetchOutcome := fun _ =>
  FetchOutcome.response
    { ok := false, errorMsg := some "Invalid request", details := some "Bad request",
      success := false, translatedText := none }

end TranslationContext

/-- The empty token list matches only the empty string. -/
lemma matchToks_nil_iff (s : List Char) : matchToks [] s = true ↔ s = [] := by
  simp [matchToks, List.isEmpty_iff]

/-- A leading literal token consumes exactly that character. -/
lemma matchToks_lit_cons (c : Char) (ts : List Tok) (s : List Char) :
    matchToks (Tok.lit c :: ts) s = true ↔
      ∃ s1, s = c :: s1 ∧ matchToks ts s1 = true := by
  cases s with
  | nil => simp [matchToks]
  | cons d s1 =>
      simp only [matchToks, Bool.and_eq_true, beq_iff_eq]
      constructor
      · rintro ⟨rfl, h⟩
        exact ⟨s1, rfl, h⟩
      · rintro ⟨s2, heq, h⟩
        injection heq with h1 h2
        exact ⟨h1.symm, h2 ▸ h⟩

/-- A block of literal tokens consumes exactly those characters. -/
lemma matchToks_litsAppend (xs : List Char) (ts : List Tok) (s : List Char) :
    matchToks (xs.map Tok.lit ++ ts) s = true ↔
      ∃ s1, s = xs ++ s1 ∧ matchToks ts s1 = true := by
  induction xs generalizing s with
  | nil => simp
  | cons x xs ih =>
      simp only [List.map_cons, List.cons_append, matchToks_lit_cons]
      constructor
      · rintro ⟨s1, rfl, h⟩
        obtain ⟨s2, rfl, h2⟩ := (ih s1).mp h
        exact ⟨s2, rfl, h2⟩
      · rintro ⟨s2, rfl, h2⟩
        exact ⟨xs ++ s2, rfl, (ih _).mpr ⟨s2, rfl, h2⟩⟩

/-- A pure literal pattern matches exactly its own spelling. -/
lemma matchToks_lits_iff (xs s : List Char) :
    matchToks (xs.map Tok.lit) s = true ↔ s = xs := by
  have h := matchToks_litsAppend xs [] s
  rw [List.append_nil] at h
  rw [h]
  constructor
  · rintro ⟨s1, rfl, hm⟩
    rw [matchToks_nil_iff] at hm
    rw [hm, List.append_nil]
  · rintro rfl
    exact ⟨[], by simp, rfl⟩

/-- The class `[^.]*` consumes an arbitrary (possibly empty) dot-free
prefix of the remaining input. -/
lemma matchToks_starNonDot_iff (ts : List Tok) (s : List Char) :
    matchToks (Tok.starNonDot :: ts) s = true ↔
      ∃ mid s1, s = mid ++ s1 ∧ (∀ c ∈ mid, c ≠ '.') ∧ matchToks ts s1 = true := by
  simp only [matchToks, List.any_eq_true, List.mem_range]
  constructor
  · rintro ⟨k, hk, h⟩
    rw [Bool.and_eq_true] at h
    refine ⟨s.take k, s.drop k, (List.take_append_drop k s).symm, ?_, h.2⟩
    intro c hc
    have := List.all_eq_true.mp h.1 c hc
    simpa using this
  · rintro ⟨mid, s1, rfl, hmid, hm⟩
    refine ⟨mid.length, ?_, ?_⟩
    · rw [List.length_append]
      omega
    · rw [Bool.and_eq_true]
      refine ⟨?_, ?_⟩
      · rw [List.take_left, List.all_eq_true]
        intro c hc
        simpa using hmid c hc
      · rw [List.drop_left]
        exact hm

/-- Compiling a pattern whose single `*` splits it into star-free parts
yields literals around one `[^.]*` class. -/
lemma compilePattern_split (pre suf : List Char)
    (hpre : '*' ∉ pre) (hsuf : '*' ∉ suf) :
    CorsMiddlewareJs.compilePattern (String.mk (pre ++ '*' :: suf)) =
      pre.map Tok.lit ++ Tok.starNonDot :: suf.map Tok.lit := by
  have h1 : pre.map (fun c => if c == '*' then Tok.starNonDot else Tok.lit c) =
      pre.map Tok.lit :=
    List.map_congr_left fun a ha => by
      have hne : a ≠ '*' := fun h => hpre (h ▸ ha)
      simp [hne]
  have h2 : suf.map (fun c => if c == '*' then Tok.starNonDot else Tok.lit c) =
      suf.map Tok.lit :=
    List.map_congr_left fun a ha => by
      have hne : a ≠ '*' := fun h => hsuf (h ▸ ha)
      simp [hne]
  show (pre ++ '*' :: suf).map (fun c => if c == '*' then Tok.starNonDot else Tok.lit c) = _
  rw [List.map_append, List.map_cons, h1, h2]
  simp

/-- Characterization of `isOriginAllowed` on a singleton allow-list whose
pattern carries exactly one wildcard: a nonempty origin is allowed iff it
is the pattern's prefix and suffix around some possibly-empty dot-free
middle.  The exact-equality branch is subsumed: an origin literally equal
to the pattern is the instance whose middle is the one-character string
`*`. -/
lemma isOriginAllowed_single_wildcard (pre suf : List Char) (origin : String)
    (hpre : '*' ∉ pre) (hsuf : '*' ∉ suf) (ho : origin ≠ "") :
    CorsMiddlewareJs.isOriginAllowed [String.mk (pre ++ '*' :: suf)] origin = true ↔
      ∃ mid : List Char, (∀ c ∈ mid, c ≠ '.') ∧ origin.toList = pre ++ mid ++ suf := by
  have h0 : (origin == "") = false := beq_eq_false_iff_ne.mpr ho
  have hcontains : (String.mk (pre ++ '*' :: suf)).toList.contains '*' = true := by
    rw [List.elem_iff]
    show '*' ∈ pre ++ '*' :: suf
    simp
  simp only [CorsMiddlewareJs.isOriginAllowed, h0, Bool.false_eq_true, if_false,
    List.any_cons, List.any_nil, Bool.or_false]
  by_cases hpe : (String.mk (pre ++ '*' :: suf) == origin) = true
  · have heq : origin.toList = pre ++ '*' :: suf := by
      have := beq_iff_eq.mp hpe
      rw [← this]
      rfl
    simp only [hpe, if_true]
    constructor
    · intro _
      exact ⟨['*'], by decide, by rw [heq]; simp⟩
    · intro _
      trivial
  · rw [Bool.not_eq_true] at hpe
    simp only [hpe, Bool.false_eq_true, if_false, hcontains, if_true]
    rw [compilePattern_split pre suf hpre hsuf]
    rw [show Tok.starNonDot :: suf.map Tok.lit =
          [Tok.starNonDot] ++ suf.map Tok.lit from rfl] at *
    rw [matchToks_litsAppend]
    constructor
    · rintro ⟨s1, hs1, hm⟩
      rw [show ([Tok.starNonDot] ++ suf.map Tok.lit : List Tok) =
            Tok.starNonDot :: suf.map Tok.lit from rfl] at hm
      rw [matchToks_starNonDot_iff] at hm
      obtain ⟨mid, s2, rfl, hmid, hm2⟩ := hm
      rw [matchToks_lits_iff] at hm2
      subst hm2
      exact ⟨mid, hmid, by rw [hs1, List.append_assoc]⟩
    · rintro ⟨mid, hmid, heq⟩
      refine ⟨mid ++ suf, by rw [heq, List.append_assoc], ?_⟩
      rw [show ([Tok.starNonDot] ++ suf.map Tok.lit : List Tok) =
            Tok.starNonDot :: suf.map Tok.lit from rfl]
      rw [matchToks_starNonDot_iff]
      exact ⟨mid, suf, rfl, hmid, (matchToks_lits_iff suf suf).mpr rfl⟩

namespace OpenRouterApi

/-- Admission never changes the configured `maxRequests`. -/
lemma checkLimit_maxRequests (st : RateLimiterState) (now wake : Int) :
    (checkLimit st now wake).1.maxRequests = st.maxRequests := by
  unfold checkLimit
  dsimp only
  split <;> rfl

/-- Admission never changes the configured window width. -/
lemma checkLimit_timeWindow (st : RateLimiterState) (now wake : Int) :
    (checkLimit st now wake).1.timeWindow = st.timeWindow := by
  unfold checkLimit
  dsimp only
  split <;> rfl

/-- The length bound is preserved by a single admission: the fast path
appends to a list strictly below the limit, and the over-limit path
replaces the head of a nonempty pruned list. -/
lemma checkLimit_length_le (st : RateLimiterState) (now wake : Int)
    (hmax : 1 ≤ st.maxRequests) (hlen : st.requests.length ≤ st.maxRequests) :
    (checkLimit st now wake).1.requests.length ≤ st.maxRequests := by
  have hple : (pruneRequests st.requests now st.timeWindow).length ≤ st.requests.length :=
    List.length_filter_le _ _
  unfold checkLimit
  dsimp only
  split
  case isTrue h =>
    simp only [List.length_append, List.length_singleton]
    omega
  case isFalse h =>
    have hpos : 0 < (pruneRequests st.requests now st.timeWindow).length := by omega
    simp only [List.length_append, List.length_tail, List.length_singleton]
    omega

/-- After pruning at instant `now`, every surviving timestamp lies in the
window `[now - timeWindow, now]` (given that all recorded timestamps were
taken at or before `now`). -/
lemma pruneRequests_within (requests : List Int) (now window : Int)
    (hub : ∀ t ∈ requests, t ≤ now) :
    ∀ t ∈ pruneRequests requests now window, now - window ≤ t ∧ t ≤ now := by
  intro t ht
  rw [pruneRequests, List.mem_filter] at ht
  obtain ⟨hmem, hcond⟩ := ht
  have : now - t < window := by simpa using hcond
  exact ⟨by omega, hub t hmem⟩

/-- A run of admissions in which the pending calls all fit in one window
and the budget is never exceeded admits every call with zero wait, simply
appending the timestamps in order. -/
lemma runCheckLimitSimple_no_delay (calls : List Int) :
    ∀ st : RateLimiterState,
      List.Pairwise (fun a b => a ≤ b ∧ b - a < st.timeWindow) calls →
      (∀ c ∈ calls, ∀ r ∈ st.requests, c - r < st.timeWindow) →
      st.requests.length + calls.length ≤ st.maxRequests →
      (runCheckLimitSimple st calls).2 = List.replicate calls.length 0 ∧
      (runCheckLimitSimple st calls).1.requests = st.requests ++ calls := by
  induction calls with
  | nil =>
      intro st _ _ _
      simp [runCheckLimitSimple]
  | cons c cs ih =>
      intro st hpair hold hlen
      have hkeep : pruneRequests st.requests c st.timeWindow = st.requests :=
        List.filter_eq_self.mpr fun r hr => by
          simpa using hold c (List.mem_cons_self c cs) r hr
      have hlt : st.requests.length < st.maxRequests := by
        simp only [List.length_cons] at hlen
        omega
      have hstep : checkLimit st c c = ({ st with requests := st.requests ++ [c] }, 0) := by
        unfold checkLimit
        rw [hkeep]
        simp [hlt]
      rw [List.pairwise_cons] at hpair
      obtain ⟨hhead, hpcs⟩ := hpair
      have ihres := ih { st with requests := st.requests ++ [c] } hpcs
        (by
          intro c2 hc2 r hr
          rcases List.mem_append.mp hr with hr | hr
          · exact hold c2 (List.mem_cons_of_mem c hc2) r hr
          · have : r = c := by simpa using hr
            subst this
            exact (hhead c2 hc2).2)
        (by
          simp at hlen ⊢
          omega)
      simp only [runCheckLimitSimple, hstep]
      refine ⟨?_, ?_⟩
      · simp only [List.length_cons, List.replicate_succ]
        simp [ihres.1]
      · rw [ihres.2]
        simp [List.append_assoc]

/-- The shared length bound holds along any interleaved trace of
completion and embedding admissions. -/
lemma runGoverned_length_le (trace : List (ApiCallKind × Int × Int)) :
    ∀ st : RateLimiterState, 1 ≤ st.maxRequests →
      st.requests.length ≤ st.maxRequests →
      (runGoverned st trace).requests.length ≤ st.maxRequests := by
  induction trace with
  | nil =>
      intro st _ h2
      simpa [runGoverned] using h2
  | cons e rest ih =>
      intro st h1 h2
      obtain ⟨k, now, wake⟩ := e
      have hmaxeq : (governedAdmission st k now wake).1.maxRequests = st.maxRequests := by
        cases k <;> exact checkLimit_maxRequests st now wake
      have hstep : (governedAdmission st k now wake).1.requests.length ≤ st.maxRequests := by
        cases k <;> exact checkLimit_length_le st now wake h1 h2
      have := ih (governedAdmission st k now wake).1
        (by rw [hmaxeq]; exact h1) (by rw [hmaxeq]; exact hstep)
      rw [hmaxeq] at this
      exact this

end OpenRouterApi

namespace TranslationContext

/-- When every attempt up to the retry budget reports quota exhaustion,
`translateText` sleeps 16 seconds before each of its `retries` retries
and finally returns the untranslated input (no error escapes). -/
lemma translateTextGo_all_quota (text : String) (outcomes : Nat → FetchOutcome) :
    ∀ (retries attempt : Nat),
      (∀ i, attempt ≤ i → i ≤ attempt + retries → isQuotaOutcome (outcomes i) = true) →
      translateTextGo text outcomes attempt retries =
        (Except.ok text, List.replicate retries 16000)
  | 0, attempt, h => by
      have hq := h attempt le_rfl (by omega)
      cases houtcome : outcomes attempt with
      | networkFailure =>
          rw [houtcome] at hq
          simp [isQuotaOutcome] at hq
      | response r =>
          rw [houtcome] at hq
          simp only [isQuotaOutcome, Bool.and_eq_true, Bool.not_eq_true'] at hq
          simp [translateTextGo, houtcome, hq.1, hq.2]
  | (k + 1), attempt, h => by
      have hq := h attempt le_rfl (by omega)
      cases houtcome : outcomes attempt with
      | networkFailure =>
          rw [houtcome] at hq
          simp [isQuotaOutcome] at hq
      | response r =>
          rw [houtcome] at hq
          simp only [isQuotaOutcome, Bool.and_eq_true, Bool.not_eq_true'] at hq
          have ih := translateTextGo_all_quota text outcomes k (attempt + 1)
            (fun i h1 h2 => h i (by omega) (by omega))
          simp [translateTextGo, houtcome, hq.1, hq.2, ih, List.replicate_succ]

/-- When every attempt up to the retry budget fails without a quota
signal (an HTTP failure with a non-quota message, or a rejected fetch),
`translateText` sleeps 2 seconds before each of its `retries` retries and
finally returns the untranslated input (no error escapes). -/
lemma translateTextGo_all_generic (text : String) (outcomes : Nat → FetchOutcome) :
    ∀ (retries attempt : Nat),
      (∀ i, attempt ≤ i → i ≤ attempt + retries →
        isGenericFailOutcome (outcomes i) = true) →
      translateTextGo text outcomes attempt retries =
        (Except.ok text, List.replicate retries 2000)
  | 0, attempt, h => by
      have hq := h attempt le_rfl (by omega)
      cases houtcome : outcomes attempt with
      | networkFailure => simp [translateTextGo, houtcome]
      | response r =>
          rw [houtcome] at hq
          simp only [isGenericFailOutcome, Bool.and_eq_true, Bool.not_eq_true'] at hq
          simp [translateTextGo, houtcome, hq.1, hq.2]
  | (k + 1), attempt, h => by
      have hq := h attempt le_rfl (by omega)
      have ih := translateTextGo_all_generic text outcomes k (attempt + 1)
        (fun i h1 h2 => h i (by omega) (by omega))
      cases houtcome : outcomes attempt with
      | networkFailure => simp [translateTextGo, houtcome, ih, List.replicate_succ]
      | response r =>
          rw [houtcome] at hq
          simp only [isGenericFailOutcome, Bool.and_eq_true, Bool.not_eq_true'] at hq
          simp [translateTextGo, houtcome, hq.1, hq.2, ih, List.replicate_succ]

end TranslationContext

/-- Claim C1, counterexample.  The claim says a wildcard stands for one
or more non-dot characters and never matches across a dot, in every
origin-matching function.  Both halves fail on the code: `isOriginAllowed`
compiles `*` to `[^.]*`, which also matches the empty segment, and the
alternative middleware compiles `*` to `.*`, which matches across dots. -/
theorem c1_counterexample :
    CorsMiddlewareJs.isOriginAllowed ["https://prefix-*.example.com"]
      ("https://prefix-.example.com") = true ∧
    CorsMiddlewareAlt.isAllowed ["https://prefix-*.example.com"]
      (some ("https://prefix-a.b.example.com")) = true := by
  exact ⟨by decide, by decide⟩

/-- Claim C1, amended.  In `isOriginAllowed` (and in the serverless
handler's hand-written regex, same compilation) a single-wildcard pattern
matches exactly the origins obtained by substituting ZERO or more non-dot
characters for the wildcard, so a match never crosses a literal dot; the
alternative middleware instead compiles the wildcard to `.*`, which does
match across dots. -/
theorem c1_wildcard_semantics :
    (∀ (pre suf : List Char) (origin : String),
      '*' ∉ pre → '*' ∉ suf → origin ≠ "" →
      (CorsMiddlewareJs.isOriginAllowed [String.mk (pre ++ '*' :: suf)] origin = true ↔
        ∃ mid : List Char, (∀ c ∈ mid, c ≠ '.') ∧ origin.toList = pre ++ mid ++ suf))
    ∧ ServerHandler.isAllowed (some ("https://ai-native-book-abc.vercel.app")) = true
    ∧ ServerHandler.isAllowed (some ("https://ai-native-book-a.b.vercel.app")) = false
    ∧ CorsMiddlewareAlt.isAllowed ["https://prefix-*.example.com"]
        (some ("https://prefix-a.b.example.com")) = true := by
  refine ⟨isOriginAllowed_single_wildcard, by decide, by decide, by decide⟩

/-- Claim C1 witness: the wildcard characterization applied to the
pattern `a*b` and the origin `axb`. -/
theorem c1_wildcard_semantics_witness :
    CorsMiddlewareJs.isOriginAllowed [String.mk (['a'] ++ '*' :: ['b'])] ("axb") = true ↔
      ∃ mid : List Char, (∀ c ∈ mid, c ≠ '.') ∧ ("axb").toList = ['a'] ++ mid ++ ['b'] :=
  c1_wildcard_semantics.1 ['a'] ['b'] ("axb") (by decide) (by decide) (by decide)

/-- Claim C2: at every admission instant, after pruning, the surviving
timestamps all lie in the window `[now - timeWindow, now]` (the recorded
timestamps being clock readings at or before `now`), and the length of
the request list stays at or below `maxRequests` across any admission
decision. -/
theorem c2_window_invariant :
    ∀ (st : OpenRouterApi.RateLimiterState) (now wake : Int),
      1 ≤ st.maxRequests →
      (∀ t ∈ st.requests, t ≤ now) →
      st.requests.length ≤ st.maxRequests →
      (∀ t ∈ OpenRouterApi.pruneRequests st.requests now st.timeWindow,
        now - st.timeWindow ≤ t ∧ t ≤ now)
      ∧ (OpenRouterApi.checkLimit st now wake).1.requests.length ≤ st.maxRequests := by
  intro st now wake hmax hub hlen
  exact ⟨OpenRouterApi.pruneRequests_within st.requests now st.timeWindow hub,
    OpenRouterApi.checkLimit_length_le st now wake hmax hlen⟩

/-- Claim C2 witness: a concrete admission at `now = 10` against a
limiter holding one in-window timestamp. -/
theorem c2_window_invariant_witness :
    (∀ t ∈ OpenRouterApi.pruneRequests [5] 10 1000, (10 : Int) - 1000 ≤ t ∧ t ≤ 10)
    ∧ (OpenRouterApi.checkLimit
        { requests := [5], maxRequests := 2, timeWindow := 1000 } 10 12).1.requests.length ≤ 2 :=
  c2_window_invariant { requests := [5], maxRequests := 2, timeWindow := 1000 } 10 12
    (by decide) (by decide) (by decide)

/-- Claim C3: the governor prunes first; when the pruned count is below
`maxRequests` it appends `now` and reports a zero wait (hence a run of
`N ≤ maxRequests` calls inside one window is never delayed); otherwise it
reports a wait of exactly `timeWindow - (now - oldest) + 1000` (the
code's safety margin is the constant 1000 ms) and re-admits by shifting
off the oldest pruned timestamp and pushing the post-wait clock reading,
without re-pruning. -/
theorem c3_admission_policy :
    (∀ (st : OpenRouterApi.RateLimiterState) (now wake : Int),
      (OpenRouterApi.pruneRequests st.requests now st.timeWindow).length < st.maxRequests →
      OpenRouterApi.checkLimit st now wake =
        ({ st with requests := OpenRouterApi.pruneRequests st.requests now st.timeWindow ++ [now] }, 0))
    ∧ (∀ (st : OpenRouterApi.RateLimiterState) (now wake : Int),
      ¬ (OpenRouterApi.pruneRequests st.requests now st.timeWindow).length < st.maxRequests →
      OpenRouterApi.checkLimit st now wake =
        ({ st with requests :=
            (OpenRouterApi.pruneRequests st.requests now st.timeWindow).tail ++ [wake] },
          st.timeWindow -
            (now - (OpenRouterApi.pruneRequests st.requests now st.timeWindow).headD 0) + 1000))
    ∧ (∀ (maxR : Nat) (window : Int) (calls : List Int),
      List.Pairwise (fun a b => a ≤ b ∧ b - a < window) calls →
      calls.length ≤ maxR →
      (OpenRouterApi.runCheckLimitSimple
        { requests := [], maxRequests := maxR, timeWindow := window } calls).2 =
        List.replicate calls.length 0) := by
  refine ⟨?_, ?_, ?_⟩
  · intro st now wake h
    unfold OpenRouterApi.checkLimit
    dsimp only
    rw [if_pos h]
  · intro st now wake h
    unfold OpenRouterApi.checkLimit
    dsimp only
    rw [if_neg h]
  · intro maxR window calls hpair hlen
    refine (OpenRouterApi.runCheckLimitSimple_no_delay calls
      { requests := [], maxRequests := maxR, timeWindow := window } hpair ?_ ?_).1
    · intro c _ r hr
      exact absurd hr (List.not_mem_nil r)
    · simpa using hlen

/-- Claim C3 witness: a fast-path admission, an over-limit admission with
its exact wait, and a two-call in-window run with no delays. -/
theorem c3_admission_policy_witness :
    (OpenRouterApi.checkLimit { requests := [], maxRequests := 2, timeWindow := 1000 } 5 6 =
      ({ ({ requests := [], maxRequests := 2, timeWindow := 1000 } :
            OpenRouterApi.RateLimiterState) with
          requests := OpenRouterApi.pruneRequests [] 5 1000 ++ [5] }, 0))
    ∧ (OpenRouterApi.checkLimit { requests := [0, 1], maxRequests := 2, timeWindow := 1000 } 5 6 =
      ({ ({ requests := [0, 1], maxRequests := 2, timeWindow := 1000 } :
            OpenRouterApi.RateLimiterState) with
          requests := (OpenRouterApi.pruneRequests [0, 1] 5 1000).tail ++ [6] },
        1000 - (5 - (OpenRouterApi.pruneRequests [0, 1] 5 1000).headD 0) + 1000))
    ∧ (OpenRouterApi.runCheckLimitSimple
        { requests := [], maxRequests := 2, timeWindow := 1000 } [0, 10]).2 =
        List.replicate ([0, 10] : List Int).length 0 :=
  ⟨c3_admission_policy.1 _ 5 6 (by decide),
   c3_admission_policy.2.1 _ 5 6 (by decide),
   c3_admission_policy.2.2 2 1000 [0, 10] (by decide) (by decide)⟩

/-- Claim C6: for an allow-list pattern without a wildcard, both
origin-matching functions allow a (nonempty) origin under that pattern
iff the origin is exactly string-equal to the pattern. -/
theorem c6_exact_match :
    ∀ (p origin : String), p.toList.contains '*' = false →
      (origin ≠ "" →
        (CorsMiddlewareJs.isOriginAllowed [p] origin = true ↔ origin = p))
      ∧ (CorsMiddlewareAlt.isAllowed [p] (some origin) = true ↔ origin = p) := by
  intro p origin hstar
  constructor
  · intro ho
    have h0 : (origin == "") = false := beq_eq_false_iff_ne.mpr ho
    simp only [CorsMiddlewareJs.isOriginAllowed, h0, Bool.false_eq_true, if_false,
      List.any_cons, List.any_nil, Bool.or_false, hstar]
    cases hpo : (p == origin) with
    | false =>
        simp only [Bool.false_eq_true, if_false]
        constructor
        · intro h
          exact absurd h (by simp)
        · intro h
          rw [h] at hpo
          simp at hpo
    | true =>
        simp only [if_true]
        exact ⟨fun _ => (beq_iff_eq.mp hpo).symm, fun _ => trivial⟩
  · simp only [CorsMiddlewareAlt.isAllowed, List.any_cons, List.any_nil, Bool.or_false, hstar]
    cases hpo : (p == origin) with
    | false =>
        simp only [Bool.false_eq_true, if_false]
        constructor
        · intro h
          exact absurd h (by simp)
        · intro h
          rw [h] at hpo
          simp at hpo
    | true =>
        simp only [if_true]
        exact ⟨fun _ => (beq_iff_eq.mp hpo).symm, fun _ => trivial⟩

/-- Claim C6 witness: the exact-match equivalences at a concrete
wildcard-free pattern. -/
theorem c6_exact_match_witness :
    ((CorsMiddlewareJs.isOriginAllowed ["http://localhost:3000"] ("http://localhost:3000") = true ↔
        ("http://localhost:3000" : String) = "http://localhost:3000"))
    ∧ (CorsMiddlewareAlt.isAllowed ["http://localhost:3000"]
        (some ("http://localhost:3000")) = true ↔
        ("http://localhost:3000" : String) = "http://localhost:3000") :=
  ⟨(c6_exact_match ("http://localhost:3000") ("http://localhost:3000") (by decide)).1 (by decide),
   (c6_exact_match ("http://localhost:3000") ("http://localhost:3000") (by decide)).2⟩

/-- Claim C10: completion and embedding calls share one module-level rate
limiter: the admission step is the same function of the same shared state
for both call kinds, and along any interleaved trace of the two kinds the
combined count of recorded timestamps never exceeds the single
`maxRequests` budget. -/
theorem c10_shared_budget :
    (∀ (st : OpenRouterApi.RateLimiterState) (k k2 : OpenRouterApi.ApiCallKind)
        (now wake : Int),
      OpenRouterApi.governedAdmission st k now wake =
        OpenRouterApi.governedAdmission st k2 now wake)
    ∧ (∀ (st : OpenRouterApi.RateLimiterState)
        (trace : List (OpenRouterApi.ApiCallKind × Int × Int)),
      1 ≤ st.maxRequests → st.requests.length ≤ st.maxRequests →
      (OpenRouterApi.runGoverned st trace).requests.length ≤ st.maxRequests) := by
  constructor
  · intro st k k2 now wake
    cases k <;> cases k2 <;> rfl
  · intro st trace h1 h2
    exact OpenRouterApi.runGoverned_length_le trace st h1 h2

/-- Claim C10 witness: a mixed completion/embedding trace against the
module's initial limiter stays within the shared budget. -/
theorem c10_shared_budget_witness :
    (OpenRouterApi.runGoverned OpenRouterApi.rateLimiterInitial
      [(OpenRouterApi.ApiCallKind.completion, 0, 0),
       (OpenRouterApi.ApiCallKind.embeddings, 1, 1)]).requests.length ≤
      OpenRouterApi.rateLimiterInitial.maxRequests :=
  c10_shared_budget.2 OpenRouterApi.rateLimiterInitial
    [(OpenRouterApi.ApiCallKind.completion, 0, 0),
     (OpenRouterApi.ApiCallKind.embeddings, 1, 1)] (by decide) (by decide)

/-- Claim C4, counterexample.  With the default budget (`retries = 3`)
and every attempt reporting quota exhaustion, `translateText` performs
three 16-second retries — four attempts in all, not the claimed three —
and then returns the untranslated input instead of surfacing a
`RateLimitExhausted` error. -/
theorem c4_counterexample :
    (TranslationContext.translateText ("hello") TranslationContext.allQuotaOutcomes
        TranslationContext.defaultRetries).2 = [16000, 16000, 16000] ∧
    (TranslationContext.translateText ("hello") TranslationContext.allQuotaOutcomes
        TranslationContext.defaultRetries).1 = Except.ok ("hello") :=
  ⟨rfl, rfl⟩

/-- Claim C4, amended.  Under persistent quota-exceeded responses,
`translateText` performs exactly `retries` retries, each after a
16-second backoff, and then gives up by returning the untranslated input
text (no error is surfaced to the caller); with `retries = 2` that is
exactly two retries, and with `retries = 0` it gives up immediately with
zero delay.  The default `retries` parameter is 3, so the default budget
is four attempts (initial plus three retries). -/
theorem c4_retry_budget :
    (∀ (text : String) (outcomes : Nat → TranslationContext.FetchOutcome) (retries : Nat),
      (∀ i, i ≤ retries → TranslationContext.isQuotaOutcome (outcomes i) = true) →
      TranslationContext.translateText text outcomes retries =
        (Except.ok text, List.replicate retries 16000))
    ∧ TranslationContext.defaultRetries = 3 := by
  refine ⟨?_, rfl⟩
  intro text outcomes retries h
  exact TranslationContext.translateTextGo_all_quota text outcomes retries 0
    (fun i _ h2 => h i (by omega))

/-- Claim C4 witness: with `retries = 2` the orchestration retries
exactly twice with 16-second backoffs and returns the input, and with
`retries = 0` it returns the input with no delay at all. -/
theorem c4_retry_budget_witness :
    TranslationContext.translateText ("t") TranslationContext.allQuotaOutcomes 2 =
      (Except.ok ("t"), List.replicate 2 16000) ∧
    TranslationContext.translateText ("t") TranslationContext.allQuotaOutcomes 0 =
      (Except.ok ("t"), List.replicate 0 16000) :=
  ⟨c4_retry_budget.1 ("t") TranslationContext.allQuotaOutcomes 2 (fun _ _ => rfl),
   c4_retry_budget.1 ("t") TranslationContext.allQuotaOutcomes 0 (fun _ _ => rfl)⟩

/-- Claim C5, counterexample.  A persistent HTTP 400 response with a
non-quota message IS retried by the `translateText` orchestration —
three 2-second backoffs under the default budget — and no `ProviderError`
is surfaced: the call finally returns the untranslated input. -/
theorem c5_counterexample :
    (TranslationContext.translateText ("hi") TranslationContext.allBadRequestOutcomes
        TranslationContext.defaultRetries).2 = [2000, 2000, 2000] ∧
    (TranslationContext.translateText ("hi") TranslationContext.allBadRequestOutcomes
        TranslationContext.defaultRetries).1 = Except.ok ("hi") :=
  ⟨rfl, rfl⟩

/-- Claim C5, amended.  Inside `callOpenRouterCompletion` a non-transient
HTTP failure (a response whose message carries no quota signal) is never
retried: the function immediately surfaces an error tagged with the
provider's message and HTTP status (or 500 when the status is absent).
The `translateText` orchestration, however, retries every failed attempt
— including such non-transient failures — with a 2-second backoff, and
after exhausting `retries` returns the untranslated input instead of
surfacing the provider error. -/
theorem c5_nontransient :
    (∀ (status : Nat) (msg : String),
      OpenRouterApi.isQuotaMessage msg = false →
      OpenRouterApi.callOpenRouterCompletionResult
          (OpenRouterApi.AxiosOutcome.httpFailure { status := status, errMessage := some msg }) =
        Except.error
          { message := "OpenRouter API error: " ++ msg,
            status := some (if status == 0 then 500 else status) })
    ∧ (∀ (text : String) (outcomes : Nat → TranslationContext.FetchOutcome) (retries : Nat),
      (∀ i, i ≤ retries → TranslationContext.isGenericFailOutcome (outcomes i) = true) →
      TranslationContext.translateText text outcomes retries =
        (Except.ok text, List.replicate retries 2000)) := by
  constructor
  · intro status msg h
    simp [OpenRouterApi.callOpenRouterCompletionResult, h]
  · intro text outcomes retries h
    exact TranslationContext.translateTextGo_all_generic text outcomes retries 0
      (fun i _ h2 => h i (by omega))

/-- Claim C5 witness: the immediate classification of a concrete HTTP 400
with a non-quota message, and the retried 400 path of `translateText`
with a concrete budget of one retry. -/
theorem c5_nontransient_witness :
    OpenRouterApi.callOpenRouterCompletionResult
        (OpenRouterApi.AxiosOutcome.httpFailure
          { status := 400, errMessage := some ("Invalid request") }) =
      Except.error
        { message := "OpenRouter API error: " ++ "Invalid request",
          status := some (if (400 : Nat) == 0 then 500 else 400) } ∧
    TranslationContext.translateText ("t") TranslationContext.allBadRequestOutcomes 1 =
      (Except.ok ("t"), List.replicate 1 2000) :=
  ⟨c5_nontransient.1 400 ("Invalid request") (by decide),
   c5_nontransient.2 ("t") TranslationContext.allBadRequestOutcomes 1 (fun _ _ => rfl)⟩

/-- Claim C7, counterexample.  An allowed cross-origin request through the
alternative middleware receives CORS headers that do NOT declare
`Set-Cookie` as an exposed header (it exposes
`Content-Length, Content-Type, Authorization` instead). -/
theorem c7_counterexample :
    (CorsMiddlewareAlt.corsMiddleware ["https://a.com"] ("GET")
        (some ("https://a.com"))).headers =
      CorsMiddlewareAlt.altHeadersList ("https://a.com") ∧
    ("Access-Control-Expose-Headers", "Set-Cookie") ∉
      (CorsMiddlewareAlt.corsMiddleware ["https://a.com"] ("GET")
        (some ("https://a.com"))).headers :=
  ⟨rfl, by decide⟩

/-- Claim C7, amended.  On an allowed origin, `setCorsHeaders` (and the
serverless handler) emit exactly the six headers echoing the request's
own origin — the emitted `Access-Control-Allow-Origin` value is always
the origin itself, never the constant `*` — with the credentials flag,
methods, headers, an exposed `Set-Cookie` declaration and a 24-hour
(86400 s) preflight cache lifetime; the alternative middleware emits the
same echo, credentials, methods and max-age but exposes
`Content-Length, Content-Type, Authorization` instead of `Set-Cookie`.
On a rejected origin, none of the three implementations emits any CORS
header. -/
theorem c7_headers :
    (∀ (allowed : List String) (o : String),
      CorsMiddlewareJs.isOriginAllowed allowed o = true →
      CorsMiddlewareJs.setCorsHeaders allowed (some o) =
        CorsMiddlewareJs.allowedHeadersList o)
    ∧ (∀ (allowed : List String) (o : String),
      CorsMiddlewareJs.isOriginAllowed allowed o = false →
      CorsMiddlewareJs.setCorsHeaders allowed (some o) = [])
    ∧ (∀ allowed : List String, CorsMiddlewareJs.setCorsHeaders allowed none = [])
    ∧ (∀ (o v : String),
      ("Access-Control-Allow-Origin", v) ∈ CorsMiddlewareJs.allowedHeadersList o → v = o)
    ∧ (∀ o : String,
      ("Access-Control-Allow-Credentials", "true") ∈ CorsMiddlewareJs.allowedHeadersList o
      ∧ ("Access-Control-Expose-Headers", "Set-Cookie") ∈ CorsMiddlewareJs.allowedHeadersList o
      ∧ ("Access-Control-Max-Age", "86400") ∈ CorsMiddlewareJs.allowedHeadersList o)
    ∧ (∀ o : String,
      ("Access-Control-Expose-Headers", "Set-Cookie") ∈ ServerHandler.handlerHeadersList o
      ∧ ("Access-Control-Max-Age", "86400") ∈ ServerHandler.handlerHeadersList o)
    ∧ (∀ o : String,
      ("Access-Control-Expose-Headers", "Set-Cookie") ∉ CorsMiddlewareAlt.altHeadersList o
      ∧ ("Access-Control-Expose-Headers", "Content-Length, Content-Type, Authorization") ∈
          CorsMiddlewareAlt.altHeadersList o
      ∧ ("Access-Control-Max-Age", "86400") ∈ CorsMiddlewareAlt.altHeadersList o)
    ∧ (∀ (method : String) (origin : Option String),
      ServerHandler.isAllowed origin = false →
      (ServerHandler.handlerCors method origin).headers = [])
    ∧ (∀ (allowed : List String) (method : String) (origin : Option String),
      CorsMiddlewareAlt.isAllowed allowed origin = false →
      (CorsMiddlewareAlt.corsMiddleware allowed method origin).headers = []) := by
  refine ⟨?_, ?_, ?_, ?_, ?_, ?_, ?_, ?_, ?_⟩
  · intro allowed o h
    have ho : o ≠ "" := by
      intro he
      rw [he] at h
      simp [CorsMiddlewareJs.isOriginAllowed] at h
    have hne : (o != "") = true := bne_iff_ne.mpr ho
    simp [CorsMiddlewareJs.setCorsHeaders, hne, h]
  · intro allowed o h
    simp [CorsMiddlewareJs.setCorsHeaders, h]
  · intro allowed
    rfl
  · intro o v h
    simp [CorsMiddlewareJs.allowedHeadersList] at h
    exact h
  · intro o
    refine ⟨?_, ?_, ?_⟩ <;> simp [CorsMiddlewareJs.allowedHeadersList]
  · intro o
    refine ⟨?_, ?_⟩ <;> simp [ServerHandler.handlerHeadersList]
  · intro o
    refine ⟨?_, ?_, ?_⟩
    · intro h
      simp [CorsMiddlewareAlt.altHeadersList] at h
    · simp [CorsMiddlewareAlt.altHeadersList]
    · simp [CorsMiddlewareAlt.altHeadersList]
  · intro method origin h
    cases hm : (method == "OPTIONS") <;>
      simp [ServerHandler.handlerCors, h, hm]
  · intro allowed method origin h
    cases hm : (method == "OPTIONS") <;>
      simp [CorsMiddlewareAlt.corsMiddleware, h, hm]

/-- Claim C7 witness: the full header set on a concrete allowed origin,
the empty header set on a concrete rejected origin, and the empty header
sets of the serverless handler and alternative middleware on a concrete
rejected origin. -/
theorem c7_headers_witness :
    (CorsMiddlewareJs.setCorsHeaders ["https://a.com"] (some ("https://a.com")) =
      CorsMiddlewareJs.allowedHeadersList ("https://a.com"))
    ∧ (CorsMiddlewareJs.setCorsHeaders ["https://a.com"] (some ("https://evil.com")) = [])
    ∧ ((ServerHandler.handlerCors ("GET") (some ("https://evil.com"))).headers = [])
    ∧ ((CorsMiddlewareAlt.corsMiddleware ["https://a.com"] ("GET")
        (some ("https://evil.com"))).headers = []) :=
  ⟨c7_headers.1 ["https://a.com"] ("https://a.com") (by decide),
   c7_headers.2.1 ["https://a.com"] ("https://evil.com") (by decide),
   c7_headers.2.2.2.2.2.2.2.1 ("GET") (some ("https://evil.com")) (by decide),
   c7_headers.2.2.2.2.2.2.2.2 ["https://a.com"] ("GET") (some ("https://evil.com")) (by decide)⟩

/-- Claim C8, counterexample.  The alternative middleware terminates an
`OPTIONS` preflight with status 200, not the claimed 204 (it does end the
response with no body, before any route handler). -/
theorem c8_counterexample :
    (CorsMiddlewareAlt.corsMiddleware [] ("OPTIONS") none).status ≠ some 204 ∧
    (CorsMiddlewareAlt.corsMiddleware [] ("OPTIONS") none).status = some 200 ∧
    (CorsMiddlewareAlt.corsMiddleware [] ("OPTIONS") none).reachedNext = false :=
  ⟨by decide, rfl, rfl⟩

/-- Claim C8, amended.  Every `OPTIONS` request is terminated immediately
after the origin decision with no body and never reaches the route
handlers; the status is 204 in the middleware module and the serverless
handler, but 200 in the alternative middleware. -/
theorem c8_preflight :
    ∀ (allowed : List String) (origin : Option String),
      ((CorsMiddlewareJs.corsMiddleware allowed ("OPTIONS") origin).status = some 204
        ∧ (CorsMiddlewareJs.corsMiddleware allowed ("OPTIONS") origin).body = none
        ∧ (CorsMiddlewareJs.corsMiddleware allowed ("OPTIONS") origin).reachedNext = false)
      ∧ ((CorsMiddlewareAlt.corsMiddleware allowed ("OPTIONS") origin).status = some 200
        ∧ (CorsMiddlewareAlt.corsMiddleware allowed ("OPTIONS") origin).body = none
        ∧ (CorsMiddlewareAlt.corsMiddleware allowed ("OPTIONS") origin).reachedNext = false)
      ∧ ((ServerHandler.handlerCors ("OPTIONS") origin).status = some 204
        ∧ (ServerHandler.handlerCors ("OPTIONS") origin).body = none
        ∧ (ServerHandler.handlerCors ("OPTIONS") origin).reachedNext = false) := by
  intro allowed origin
  exact ⟨⟨rfl, rfl, rfl⟩, ⟨rfl, rfl, rfl⟩, ⟨rfl, rfl, rfl⟩⟩

/-- Claim C9, counterexample.  An `OPTIONS` request without an `Origin`
header does NOT proceed to the route handlers: both the serverless
handler and the middleware module terminate it at the CORS stage. -/
theorem c9_counterexample :
    (ServerHandler.handlerCors ("OPTIONS") none).reachedNext = false ∧
    (CorsMiddlewareJs.corsMiddleware ["https://a.com"] ("OPTIONS") none).reachedNext = false :=
  ⟨rfl, rfl⟩

/-- Claim C9, amended.  Every non-`OPTIONS` request without an `Origin`
header is treated as same-origin: the `corsOptions.origin` callback
allows it, and both the middleware module and the serverless handler pass
it through to the route handlers with no CORS headers and no status
written (an `OPTIONS` request without an `Origin` header is instead
terminated at the CORS stage like any preflight). -/
theorem c9_no_origin :
    ∀ (allowed : List String) (method : String), method ≠ "OPTIONS" →
      CorsMiddlewareJs.corsOptionsOrigin allowed none = CorsMiddlewareJs.OriginDecision.allow
      ∧ ((CorsMiddlewareJs.corsMiddleware allowed method none).headers = []
        ∧ (CorsMiddlewareJs.corsMiddleware allowed method none).status = none
        ∧ (CorsMiddlewareJs.corsMiddleware allowed method none).reachedNext = true)
      ∧ ((ServerHandler.handlerCors method none).headers = []
        ∧ (ServerHandler.handlerCors method none).status = none
        ∧ (ServerHandler.handlerCors method none).reachedNext = true) := by
  intro allowed method hm
  have hm2 : (method == "OPTIONS") = false := beq_eq_false_iff_ne.mpr hm
  refine ⟨rfl, ?_, ?_⟩
  · refine ⟨?_, ?_, ?_⟩ <;>
      simp [CorsMiddlewareJs.corsMiddleware, CorsMiddlewareJs.setCorsHeaders, hm2]
  · refine ⟨?_, ?_, ?_⟩ <;>
      simp [ServerHandler.handlerCors, ServerHandler.isAllowed, hm2]

/-- Claim C9 witness: a concrete GET request without an `Origin` header
passes through with no CORS headers. -/
theorem c9_no_origin_witness :
    CorsMiddlewareJs.corsOptionsOrigin [] none = CorsMiddlewareJs.OriginDecision.allow
    ∧ ((CorsMiddlewareJs.corsMiddleware [] ("GET") none).headers = []
      ∧ (CorsMiddlewareJs.corsMiddleware [] ("GET") none).status = none
      ∧ (CorsMiddlewareJs.corsMiddleware [] ("GET") none).reachedNext = true)
    ∧ ((ServerHandler.handlerCors ("GET") none).headers = []
      ∧ (ServerHandler.handlerCors ("GET") none).status = none
      ∧ (ServerHandler.handlerCors ("GET") none).reachedNext = true) :=
  c9_no_origin [] ("GET") (by decide)
